import Mathlib

/-!
Shallow embedding of the Legend EKS platform builder
(`installers/aws-cdk-eks/lib/legend-platform.ts`, the `LegendEKSStack` and
`LegendSecretsStack` CDK stacks).  The builder is a pure configuration
generator: given secret identifiers (ARNs), the database endpoint and the
VPC address range, it declares a namespace, one SecretProviderClass per
secret, seven workload deployments with services, an ingress and a network
policy, together with explicit dependency edges between the declared
manifest nodes.  We embed the manifests as Lean structures and the
constructor as a function from the props record to the declared graph.
-/

namespace Legend

/-- One entry of the `jmesPath` array of a SecretProviderClass object:
`path` is the JMESPath into the stored secret (`"."` meaning the entire
value) and `objectAlias` the key it is exposed under. -/
structure JmesEntry where
  path : String
  objectAlias : String
deriving DecidableEq, Repr

/-- One entry of `spec.parameters.objects`: a reference to a single
Secrets Manager secret (by ARN) with its field extraction list. -/
structure SpcObject where
  objectName : String
  objectType : String
  jmes : List JmesEntry
deriving DecidableEq, Repr

/-- One entry of `secretObjects[0].data`: maps a fetched object alias to a
key of the synced Kubernetes Secret. -/
structure SecretDataEntry where
  objectName : String
  key : String
deriving DecidableEq, Repr

/-- The SecretProviderClass manifest produced by
`createSecretProviderClass`. -/
structure SecretProviderClass where
  metadataName : String
  nsName : String
  provider : String
  objects : List SpcObject
  secretName : String
  secretType : String
  data : List SecretDataEntry
deriving DecidableEq, Repr

/-- `createSecretProviderClass(cluster, idSuffix, namespace, secretArn,
k8sSecretName, k8sSecretKey, secretProperty?, alternateProperty?,
alternateKey?)`: builds the jmesPath list (one entry from
`secretProperty`, or `"."` for the whole value, plus an optional alternate
entry) and the manifest syncing those aliases into a Kubernetes Secret. -/
def createSecretProviderClass (idSuffix nsName secretArn k8sSecretName k8sSecretKey : String)
    (secretProperty alternateProperty alternateKey : Option String) : SecretProviderClass :=
  let jmesPath : List JmesEntry :=
    (match secretProperty with
     | some p => [⟨p, k8sSecretKey⟩]
     | none => [⟨".", k8sSecretKey⟩]) ++
    (match alternateProperty, alternateKey with
     | some ap, some ak => [⟨ap, ak⟩]
     | _, _ => [])
  { metadataName := idSuffix
    nsName := nsName
    provider := "aws"
    objects := [⟨secretArn, "secretsmanager", jmesPath⟩]
    secretName := k8sSecretName
    secretType := "Opaque"
    data := jmesPath.map fun mp => ⟨mp.objectAlias, mp.objectAlias⟩ }

/-- An environment variable value: a literal string, or an indirect
`valueFrom.secretKeyRef` reference to a synced secret name and key. -/
inductive EnvVal where
  | literal (value : String)
  | secretKeyRef (secretName key : String)
deriving DecidableEq, Repr

/-- One container environment variable. -/
structure EnvVar where
  name : String
  val : EnvVal
deriving DecidableEq, Repr

/-- The shared `commonEnv` list given to every Legend service container. -/
def commonEnv (docdbHost : String) (docdbPort : Nat) : List EnvVar :=
  [ ⟨"LEGEND_DOMAIN", .secretKeyRef "legend-domain-secret" "LEGEND_DOMAIN"⟩
  , ⟨"GITLAB_APP_ID", .secretKeyRef "legend-gitlab-id-secret" "GITLAB_APP_ID"⟩
  , ⟨"GITLAB_APP_SECRET", .secretKeyRef "legend-gitlab-secret" "GITLAB_APP_SECRET"⟩
  , ⟨"DOCDB_HOST", .literal docdbHost⟩
  , ⟨"DOCDB_PORT", .literal (toString docdbPort)⟩
  , ⟨"DOCDB_NAME", .literal "legend"⟩
  , ⟨"DOCDB_USER", .secretKeyRef "legend-docdb-secret" "DOCDB_USERNAME"⟩
  , ⟨"DOCDB_PASS", .secretKeyRef "legend-docdb-secret" "DOCDB_PASSWORD"⟩ ]

/-- A CSI volume of a pod spec: its name and the SecretProviderClass it
refers to through `volumeAttributes.secretProviderClass`. -/
structure Volume where
  volName : String
  spcName : String
deriving DecidableEq, Repr

/-- A container volumeMount. -/
structure VolumeMount where
  volName : String
  mountPath : String
  readOnly : Bool
deriving DecidableEq, Repr

/-- A Deployment manifest as produced by `makeDeployment`. -/
structure Deployment where
  name : String
  nsName : String
  replicas : Nat
  image : String
  imagePullPolicy : String
  containerPort : Nat
  volumes : List Volume
  env : List EnvVar
  volumeMounts : List VolumeMount
deriving DecidableEq, Repr

/-- `makeDeployment(appName, image, port)`: two replicas, six CSI volumes
(one per SecretProviderClass), the shared environment list, and read-only
mounts for every volume. -/
def makeDeployment (appName image : String) (port : Nat) (env : List EnvVar) : Deployment :=
  { name := appName
    nsName := "legend"
    replicas := 2
    image := image
    imagePullPolicy := "Always"
    containerPort := port
    volumes :=
      [ ⟨appName ++ "-domain-vol", "domain-spc"⟩
      , ⟨appName ++ "-cert-vol", "cert-spc"⟩
      , ⟨appName ++ "-gitlabid-vol", "gitlab-id-spc"⟩
      , ⟨appName ++ "-gitlabsecret-vol", "gitlab-secret-spc"⟩
      , ⟨appName ++ "-grafana-vol", "grafana-spc"⟩
      , ⟨appName ++ "-docdb-vol", "docdb-spc"⟩ ]
    env := env
    volumeMounts :=
      [ ⟨appName ++ "-domain-vol", "/mnt/" ++ appName ++ "/domain", true⟩
      , ⟨appName ++ "-cert-vol", "/mnt/" ++ appName ++ "/cert", true⟩
      , ⟨appName ++ "-gitlabid-vol", "/mnt/" ++ appName ++ "/gitlab-id", true⟩
      , ⟨appName ++ "-gitlabsecret-vol", "/mnt/" ++ appName ++ "/gitlab-secret", true⟩
      , ⟨appName ++ "-grafana-vol", "/mnt/" ++ appName ++ "/grafana", true⟩
      , ⟨appName ++ "-docdb-vol", "/mnt/" ++ appName ++ "/docdb", true⟩ ] }

/-- A ClusterIP Service manifest as produced by `makeService`. -/
structure ServiceManifest where
  name : String
  nsName : String
  selectorApp : String
  port : Nat
  targetPort : Nat
  svcType : String
deriving DecidableEq, Repr

/-- `makeService(appName, port)`. -/
def makeService (appName : String) (port : Nat) : ServiceManifest :=
  { name := appName, nsName := "legend", selectorApp := appName
    port := port, targetPort := port, svcType := "ClusterIP" }

/-- One Legend service to deploy: name, image, container port. -/
structure Component where
  name : String
  image : String
  port : Nat
deriving DecidableEq, Repr

/-- The `components` list of the seven Legend services. -/
def legendComponents : List Component :=
  [ ⟨"legend-engine", "finos/legend-engine-server:latest", 6300⟩
  , ⟨"legend-sdlc", "finos/legend-sdlc-server:latest", 6100⟩
  , ⟨"legend-studio", "finos/legend-studio:latest", 9000⟩
  , ⟨"legend-query", "finos/legend-query:latest", 9001⟩
  , ⟨"legend-pure-ide", "finos/legend-engine-pure-ide-light:latest", 9200⟩
  , ⟨"legend-depot", "finos/legend-depot-server:latest", 6200⟩
  , ⟨"legend-depot-store", "finos/legend-depot-store-server:latest", 6201⟩ ]

/-- One rule of the ingress `spec.rules[0].http.paths` list. -/
structure IngressRule where
  path : String
  pathType : String
  serviceName : String
  portNumber : Nat
deriving DecidableEq, Repr

/-- The `LegendIngress` manifest: host and certificate ARN are manual
placeholders in the reference configuration. -/
structure Ingress where
  name : String
  nsName : String
  certArnAnnotation : String
  host : String
  paths : List IngressRule
deriving DecidableEq, Repr

/-- The seven hardcoded path rules of the `LegendIngress` manifest. -/
def legendIngressPaths : List IngressRule :=
  [ ⟨"/engine/*", "Prefix", "legend-engine", 6300⟩
  , ⟨"/sdlc/*", "Prefix", "legend-sdlc", 6100⟩
  , ⟨"/studio/*", "Prefix", "legend-studio", 9000⟩
  , ⟨"/query/*", "Prefix", "legend-query", 9001⟩
  , ⟨"/ide/*", "Prefix", "legend-pure-ide", 9200⟩
  , ⟨"/depot/*", "Prefix", "legend-depot", 6200⟩
  , ⟨"/depot-store/*", "Prefix", "legend-depot-store", 6201⟩ ]

/-- The `LegendIngress` manifest as built in the constructor. -/
def legendIngress : Ingress :=
  { name := "legend-ingress"
    nsName := "legend"
    certArnAnnotation := "\x7b\x7bREPLACE_WITH_YOUR_CERT_ARN\x7d\x7d"
    host := "\x7b\x7bREPLACE_WITH_DOMAIN_NAME\x7d\x7d"
    paths := legendIngressPaths }

/-- The `LegendNetworkPolicy` manifest: deny all ingress except the given
source address range (the VPC CIDR in the reference configuration). -/
structure NetworkPolicy where
  name : String
  nsName : String
  allowedCidr : String
deriving DecidableEq, Repr

/-- The props record of the `LegendPlatform` construct: secret identifiers
(ARNs), the DocumentDB master secret (absent when the database was not
configured with generated credentials), the database endpoint, and the VPC
CIDR block. -/
structure LegendPlatformProps where
  domainArn : String
  certArn : String
  gitlabAppIdArn : String
  gitlabAppSecretArn : String
  grafanaAdminArn : String
  docdbSecretArn : Option String
  docdbHost : String
  docdbPort : Nat
  vpcCidr : String
deriving DecidableEq, Repr

/-- Errors thrown during graph construction.  The constructor's only
`throw` is the missing DocumentDB master secret check. -/
inductive BuildError where
  | missingDocdbSecret
deriving DecidableEq, Repr

/-- The declared manifest graph built by the `LegendPlatform` constructor:
the manifests plus the declared dependency edges (pairs
`(before, after)` of `addManifest` node ids, from `addDependency` calls). -/
structure PlatformGraph where
  nsName : String
  spcs : List SecretProviderClass
  workloads : List Deployment
  services : List ServiceManifest
  ingress : Ingress
  netPolicy : NetworkPolicy
  edges : List (String × String)
deriving DecidableEq, Repr

/-- `addManifest` node ids of the six SecretProviderClass manifests, in
declaration order. -/
def spcNodeIds : List String :=
  [ "SecretProviderClass-domain-spc"
  , "SecretProviderClass-cert-spc"
  , "SecretProviderClass-gitlab-id-spc"
  , "SecretProviderClass-gitlab-secret-spc"
  , "SecretProviderClass-grafana-spc"
  , "SecretProviderClass-docdb-spc" ]

/-- The successful branch of the constructor (after the DocumentDB secret
check passed, `docdbArn` being that secret's ARN): builds the namespace,
the six SecretProviderClasses, the seven deployment/service pairs, the
ingress and the network policy, and declares the dependency edges
`dplManifest.node.addDependency(ns, domainSpc, certSpc, gitlabIdSpc,
gitlabSecretSpc, grafanaSpc, docdbSpc)`,
`svcManifest.node.addDependency(dplManifest)` and
`networkPolicy.node.addDependency(ingress)`. -/
def mkPlatformGraph (p : LegendPlatformProps) (docdbArn : String) : PlatformGraph :=
  let nsName := "legend"
  let env := commonEnv p.docdbHost p.docdbPort
  { nsName := nsName
    spcs :=
      [ createSecretProviderClass "domain-spc" nsName p.domainArn
          "legend-domain-secret" "LEGEND_DOMAIN" none none none
      , createSecretProviderClass "cert-spc" nsName p.certArn
          "legend-certificate-secret" "LEGEND_CERT_ARN" none none none
      , createSecretProviderClass "gitlab-id-spc" nsName p.gitlabAppIdArn
          "legend-gitlab-id-secret" "GITLAB_APP_ID" none none none
      , createSecretProviderClass "gitlab-secret-spc" nsName p.gitlabAppSecretArn
          "legend-gitlab-secret" "GITLAB_APP_SECRET" none none none
      , createSecretProviderClass "grafana-spc" nsName p.grafanaAdminArn
          "legend-grafana-secret" "GRAFANA_ADMIN_PASSWORD" none none none
      , createSecretProviderClass "docdb-spc" nsName docdbArn
          "legend-docdb-secret" "DOCDB_PASSWORD" (some "password") (some "username")
          (some "DOCDB_USERNAME") ]
    workloads := legendComponents.map fun c => makeDeployment c.name c.image c.port env
    services := legendComponents.map fun c => makeService c.name c.port
    ingress := legendIngress
    netPolicy := ⟨"legend-deny-all-except-alb", nsName, p.vpcCidr⟩
    edges :=
      (legendComponents.map fun c =>
        ("LegendNamespace", c.name ++ "-deploy")
          :: spcNodeIds.map (fun s => (s, c.name ++ "-deploy"))
          ++ [(c.name ++ "-deploy", c.name ++ "-svc")]).flatten
      ++ [("LegendIngress", "LegendNetworkPolicy")] }

/-- The `LegendPlatform` constructor: throws when the DocumentDB cluster
carries no master secret, otherwise declares the whole graph. -/
def buildLegendPlatform (p : LegendPlatformProps) : Except BuildError PlatformGraph :=
  match p.docdbSecretArn with
  | none => .error .missingDocdbSecret
  | some docdbArn => .ok (mkPlatformGraph p docdbArn)

/-- A declared secret record: its Secrets Manager name, the identifier
(ARN) it is referenced by downstream, and the named properties the stored
value holds. -/
structure SecretRecord where
  secretName : String
  arn : String
  properties : List String
deriving DecidableEq, Repr

/-- The five records of `LegendSecretsStack`, one per sensitive value,
each generated into a JSON template with a single `value` field and read
downstream as one opaque string. -/
def legendSecretsStackRecords : List SecretRecord :=
  [ ⟨"legend/domainName", "arn:aws:secretsmanager:::secret:legend/domainName", ["value"]⟩
  , ⟨"legend/certificateArn", "arn:aws:secretsmanager:::secret:legend/certificateArn", ["value"]⟩
  , ⟨"legend/gitlabAppId", "arn:aws:secretsmanager:::secret:legend/gitlabAppId", ["value"]⟩
  , ⟨"legend/gitlabAppSecret", "arn:aws:secretsmanager:::secret:legend/gitlabAppSecret", ["value"]⟩
  , ⟨"legend/grafanaAdminPassword", "arn:aws:secretsmanager:::secret:legend/grafanaAdminPassword", ["value"]⟩ ]

/-- The backend-generated DocumentDB master credential record
(`docdb.Credentials.fromGeneratedSecret('legend')`): a username/password
pair held in a single record. -/
def docdbMasterRecord : SecretRecord :=
  ⟨"legend-docdb-master", "arn:aws:secretsmanager:::secret:legend-docdb-master",
   ["username", "password"]⟩

/-- The six secret records of the reference configuration: five declared
sensitive values plus the database master credential. -/
def legendSecretRecords : List SecretRecord :=
  legendSecretsStackRecords ++ [docdbMasterRecord]

/-- The reference configuration: the five declared secret ARNs, the
generated DocumentDB master secret, the database endpoint, and the VPC
CIDR block. -/
def refProps : LegendPlatformProps :=
  { domainArn := "arn:aws:secretsmanager:::secret:legend/domainName"
    certArn := "arn:aws:secretsmanager:::secret:legend/certificateArn"
    gitlabAppIdArn := "arn:aws:secretsmanager:::secret:legend/gitlabAppId"
    gitlabAppSecretArn := "arn:aws:secretsmanager:::secret:legend/gitlabAppSecret"
    grafanaAdminArn := "arn:aws:secretsmanager:::secret:legend/grafanaAdminPassword"
    docdbSecretArn := some "arn:aws:secretsmanager:::secret:legend-docdb-master"
    docdbHost := "legend-docdb.cluster.internal"
    docdbPort := 27017
    vpcCidr := "10.0.0.0/16" }

/-- The same reference configuration with the DocumentDB master secret
absent. -/
def noDocdbProps : LegendPlatformProps :=
  { refProps with docdbSecretArn := none }

/-- The graph the constructor declares for the reference configuration. -/
def refGraph : PlatformGraph :=
  mkPlatformGraph refProps "arn:aws:secretsmanager:::secret:legend-docdb-master"

/-- The `(targetSecretName, key)` pairs a workload's environment variables
reference through `secretKeyRef`. -/
def envSecretRefs (w : Deployment) : List (String × String) :=
  w.env.filterMap fun e =>
    match e.val with
    | .secretKeyRef n k => some (n, k)
    | .literal _ => none

/-- The `(targetSecretName, key)` pairs made available to a workload by
the SecretProviderClasses its volumes mount. -/
def mountedSecretKeys (g : PlatformGraph) (w : Deployment) : List (String × String) :=
  ((g.spcs.filter fun spc => w.volumes.any fun v => v.spcName == spc.metadataName).map
    fun spc => spc.data.map fun d => (spc.secretName, d.key)).flatten

/-- `addManifest` node ids of the manifests placed in the graph's
namespace (all of them, in the reference graph). -/
def namespacedNodeIds (g : PlatformGraph) : List String :=
  (g.spcs.filter fun s => s.nsName == g.nsName).map
      (fun s => "SecretProviderClass-" ++ s.metadataName)
    ++ (g.workloads.filter fun w => w.nsName == g.nsName).map (fun w => w.name ++ "-deploy")
    ++ (g.services.filter fun s => s.nsName == g.nsName).map (fun s => s.name ++ "-svc")
    ++ (if g.ingress.nsName == g.nsName then ["LegendIngress"] else [])
    ++ (if g.netPolicy.nsName == g.nsName then ["LegendNetworkPolicy"] else [])

/-- The deployment manifest of `legend-engine` in the reference graph. -/
def refEngineDeployment : Deployment :=
  makeDeployment "legend-engine" "finos/legend-engine-server:latest" 6300
    (commonEnv refProps.docdbHost refProps.docdbPort)

/-- Pairwise non-overlap of routing path strings: neither path is a
string prefix of the other. -/
def pathsDisjoint (rules : List IngressRule) : Prop :=
  rules.Pairwise fun a b =>
    a.path.data.isPrefixOf b.path.data = false ∧ b.path.data.isPrefixOf a.path.data = false

/-- C2: the reference configuration of five declared sensitive values plus
the backend-generated database credential yields exactly six
SecretRecords and exactly six SecretProviderClass bindings; the bindings'
target secret names are pairwise distinct; every binding's field map draws
from exactly one secret record (a single object ARN, matching one
record); and every binding syncs a single field except the sanctioned
two-field database-credential binding. -/
theorem c2_six_records_six_bindings :
    legendSecretRecords.length = 6 ∧
    refGraph.spcs.length = 6 ∧
    (refGraph.spcs.map fun s => s.secretName).Nodup ∧
    (∀ spc ∈ refGraph.spcs, ∃ r ∈ legendSecretRecords,
      spc.objects.map (fun o => o.objectName) = [r.arn]) ∧
    (∀ spc ∈ refGraph.spcs,
      spc.data.length = 1 ∨
        (spc.secretName = "legend-docdb-secret" ∧ spc.data.length = 2)) := by
  refine ⟨rfl, rfl, ?_, ?_, ?_⟩ <;> decide

/-- C8: the routing table of the reference graph is the seven hardcoded
rules, and for every pair of distinct rules neither path is a string
prefix of the other. -/
theorem c8_routing_disjoint :
    refGraph.ingress.paths = legendIngressPaths ∧
    refGraph.ingress.paths.length = 7 ∧
    pathsDisjoint refGraph.ingress.paths := by
  refine ⟨rfl, rfl, ?_⟩
  unfold pathsDisjoint
  decide

/-- C7 counterexample: the built graph contains the `legend-engine`
deployment, whose environment holds `DOCDB_NAME` with the literal value
`"legend"` (likewise `DOCDB_HOST` with the literal endpoint hostname), so
not every environment variable is resolved through a `secretKeyRef`. -/
theorem c7_counterexample :
    buildLegendPlatform refProps = .ok refGraph ∧
    refEngineDeployment ∈ refGraph.workloads ∧
    EnvVar.mk "DOCDB_NAME" (EnvVal.literal "legend") ∈ refEngineDeployment.env ∧
    EnvVar.mk "DOCDB_HOST" (EnvVal.literal "legend-docdb.cluster.internal")
      ∈ refEngineDeployment.env := by
  refine ⟨rfl, ?_, ?_, ?_⟩ <;> decide

/-- C1 counterexample: the SecretProviderClass and ingress manifests are
placed in the `legend` namespace, yet no `LegendNamespace`-before-them
edge is declared (the namespace edge is declared only for the seven
workload deployments), so the declared edges do not include the namespace
node before every manifest placed in that namespace. -/
theorem c1_counterexample :
    buildLegendPlatform refProps = .ok refGraph ∧
    "SecretProviderClass-domain-spc" ∈ namespacedNodeIds refGraph ∧
    "LegendIngress" ∈ namespacedNodeIds refGraph ∧
    ("LegendNamespace", "SecretProviderClass-domain-spc") ∉ refGraph.edges ∧
    ("LegendNamespace", "LegendIngress") ∉ refGraph.edges := by
  refine ⟨rfl, ?_, ?_, ?_, ?_⟩ <;> decide

/-- C1 (amended): the declared edges are exactly these: for each of the
seven workloads, the namespace node and all six SecretProviderClass nodes
before the workload's deployment, and the deployment before its service;
plus the ingress before the network policy.  In particular every
SecretBinding node is declared before every workload deployment that
mounts it and the routing node before the network-policy node, but the
namespace edge is declared only for the deployments. -/
theorem c1_amended_declared_edges (p : LegendPlatformProps) (a : String) :
    (∀ c ∈ legendComponents,
      ("LegendNamespace", c.name ++ "-deploy") ∈ (mkPlatformGraph p a).edges ∧
      (∀ s ∈ spcNodeIds, (s, c.name ++ "-deploy") ∈ (mkPlatformGraph p a).edges) ∧
      (c.name ++ "-deploy", c.name ++ "-svc") ∈ (mkPlatformGraph p a).edges) ∧
    ("LegendIngress", "LegendNetworkPolicy") ∈ (mkPlatformGraph p a).edges ∧
    (∀ e ∈ (mkPlatformGraph p a).edges,
      e = ("LegendIngress", "LegendNetworkPolicy") ∨
      ∃ c ∈ legendComponents,
        e = ("LegendNamespace", c.name ++ "-deploy") ∨
        (∃ s ∈ spcNodeIds, e = (s, c.name ++ "-deploy")) ∨
        e = (c.name ++ "-deploy", c.name ++ "-svc")) := by
  have h : (mkPlatformGraph p a).edges = refGraph.edges := rfl
  rw [h]
  decide

/-- Closed instance of the amended C1 statement at the reference
configuration. -/
theorem c1_amended_witness :
    ("LegendIngress", "LegendNetworkPolicy") ∈
      (mkPlatformGraph refProps "arn:aws:secretsmanager:::secret:legend-docdb-master").edges :=
  (c1_amended_declared_edges refProps "arn:aws:secretsmanager:::secret:legend-docdb-master").2.1

/-- C4 (code evaluation): whenever the DocumentDB master secret is
present, graph construction succeeds — the constructor contains no
disjointness validation and no failure path for routing — and the routing
table of every built graph is the fixed hardcoded rule list, independent
of the input configuration. -/
theorem c4_no_routing_validation :
    (∀ p a, p.docdbSecretArn = some a →
      buildLegendPlatform p = .ok (mkPlatformGraph p a)) ∧
    (∀ p a, (mkPlatformGraph p a).ingress.paths = legendIngressPaths) := by
  constructor
  · intro p a h
    simp [buildLegendPlatform, h]
  · intro p a
    rfl

/-- Closed instance: the reference configuration builds successfully. -/
theorem c4_witness :
    buildLegendPlatform refProps =
      .ok (mkPlatformGraph refProps "arn:aws:secretsmanager:::secret:legend-docdb-master") :=
  c4_no_routing_validation.1 refProps "arn:aws:secretsmanager:::secret:legend-docdb-master" rfl

/-- C6: graph construction fails with the missing-master-secret error
(declaring no graph node at all) exactly when the DocumentDB cluster
carries no master secret; with a present secret it proceeds and declares
the full graph. -/
theorem c6_missing_credential_fatal (p : LegendPlatformProps) :
    (buildLegendPlatform p = .error .missingDocdbSecret ↔ p.docdbSecretArn = none) ∧
    (∀ a, p.docdbSecretArn = some a →
      buildLegendPlatform p = .ok (mkPlatformGraph p a)) := by
  rcases hp : p.docdbSecretArn with _ | a
  · simp [buildLegendPlatform, hp]
  · simp [buildLegendPlatform, hp]

/-- Closed instance: with the master secret absent, construction fails. -/
theorem c6_witness :
    buildLegendPlatform noDocdbProps = .error .missingDocdbSecret :=
  (c6_missing_credential_fatal noDocdbProps).1.mpr rfl

/-- The secret references of a generated deployment's shared environment
list, in order. -/
lemma envSecretRefs_makeDeployment (n i : String) (port : Nat) (h : String) (pp : Nat) :
    envSecretRefs (makeDeployment n i port (commonEnv h pp)) =
      [ ("legend-domain-secret", "LEGEND_DOMAIN")
      , ("legend-gitlab-id-secret", "GITLAB_APP_ID")
      , ("legend-gitlab-secret", "GITLAB_APP_SECRET")
      , ("legend-docdb-secret", "DOCDB_USERNAME")
      , ("legend-docdb-secret", "DOCDB_PASSWORD") ] := rfl

/-- The secret keys available to any generated deployment through its six
mounted SecretProviderClasses. -/
lemma mountedSecretKeys_mkPlatformGraph (p : LegendPlatformProps) (a n i : String)
    (port : Nat) (env : List EnvVar) :
    mountedSecretKeys (mkPlatformGraph p a) (makeDeployment n i port env) =
      [ ("legend-domain-secret", "LEGEND_DOMAIN")
      , ("legend-certificate-secret", "LEGEND_CERT_ARN")
      , ("legend-gitlab-id-secret", "GITLAB_APP_ID")
      , ("legend-gitlab-secret", "GITLAB_APP_SECRET")
      , ("legend-grafana-secret", "GRAFANA_ADMIN_PASSWORD")
      , ("legend-docdb-secret", "DOCDB_PASSWORD")
      , ("legend-docdb-secret", "DOCDB_USERNAME") ] := rfl

/-- The workload list of a built graph. -/
lemma workloads_mkPlatformGraph (p : LegendPlatformProps) (a : String) :
    (mkPlatformGraph p a).workloads =
      legendComponents.map fun c =>
        makeDeployment c.name c.image c.port (commonEnv p.docdbHost p.docdbPort) := rfl

/-- C5: every environment-variable secret reference of every workload of a
successfully built graph corresponds to a key of a binding mounted by
that workload; consequently a workload referencing an unmounted binding
never appears in a built graph. -/
theorem c5_env_refs_mounted (p : LegendPlatformProps) (g : PlatformGraph)
    (hg : buildLegendPlatform p = .ok g) :
    ∀ w ∈ g.workloads, ∀ r ∈ envSecretRefs w, r ∈ mountedSecretKeys g w := by
  rcases hp : p.docdbSecretArn with _ | a
  · simp [buildLegendPlatform, hp] at hg
  · simp [buildLegendPlatform, hp] at hg
    subst hg
    intro w hw r hr
    rw [workloads_mkPlatformGraph, List.mem_map] at hw
    obtain ⟨c, hc, rfl⟩ := hw
    rw [envSecretRefs_makeDeployment] at hr
    rw [mountedSecretKeys_mkPlatformGraph]
    fin_cases hr <;> decide

/-- Closed instance of C5 at the reference configuration's engine
workload and its domain-secret reference. -/
theorem c5_witness :
    ("legend-domain-secret", "LEGEND_DOMAIN") ∈
      mountedSecretKeys refGraph refEngineDeployment :=
  c5_env_refs_mounted refProps refGraph rfl refEngineDeployment (by decide)
    ("legend-domain-secret", "LEGEND_DOMAIN") (by decide)

/-- C7 (amended): in every built workload's environment list, exactly the
three database connection parameters `DOCDB_HOST`, `DOCDB_PORT` and
`DOCDB_NAME` carry literal values; every other environment variable is
resolved through a `(targetSecretName, key)` `secretKeyRef` pair. -/
theorem c7_amended_env_indirection (p : LegendPlatformProps) (a : String) :
    ∀ w ∈ (mkPlatformGraph p a).workloads, ∀ e ∈ w.env,
      ((∃ n k, e.val = EnvVal.secretKeyRef n k) ↔
        e.name ∉ ["DOCDB_HOST", "DOCDB_PORT", "DOCDB_NAME"]) := by
  intro w hw e he
  rw [workloads_mkPlatformGraph, List.mem_map] at hw
  obtain ⟨c, hc, rfl⟩ := hw
  have henv : (makeDeployment c.name c.image c.port
      (commonEnv p.docdbHost p.docdbPort)).env = commonEnv p.docdbHost p.docdbPort := rfl
  rw [henv] at he
  simp only [commonEnv, List.mem_cons, List.not_mem_nil, or_false] at he
  rcases he with rfl | rfl | rfl | rfl | rfl | rfl | rfl | rfl <;> simp

/-- Closed instance of the amended C7 statement: the `LEGEND_DOMAIN`
variable of the engine workload is a secret reference. -/
theorem c7_amended_witness :
    (∃ n k, (EnvVar.mk "LEGEND_DOMAIN"
        (EnvVal.secretKeyRef "legend-domain-secret" "LEGEND_DOMAIN")).val =
          EnvVal.secretKeyRef n k) ↔
      (EnvVar.mk "LEGEND_DOMAIN"
        (EnvVal.secretKeyRef "legend-domain-secret" "LEGEND_DOMAIN")).name ∉
          ["DOCDB_HOST", "DOCDB_PORT", "DOCDB_NAME"] :=
  c7_amended_env_indirection refProps "arn:aws:secretsmanager:::secret:legend-docdb-master"
    refEngineDeployment (by decide) _ (by decide)

/-- C9: the build is a deterministic function of exactly the declared
configuration fields — two builds from configurations agreeing on every
field produce structurally identical graphs; the declaration layer embeds
no timestamps or randomness. -/
theorem c9_deterministic (p q : LegendPlatformProps)
    (h1 : p.domainArn = q.domainArn) (h2 : p.certArn = q.certArn)
    (h3 : p.gitlabAppIdArn = q.gitlabAppIdArn)
    (h4 : p.gitlabAppSecretArn = q.gitlabAppSecretArn)
    (h5 : p.grafanaAdminArn = q.grafanaAdminArn)
    (h6 : p.docdbSecretArn = q.docdbSecretArn)
    (h7 : p.docdbHost = q.docdbHost) (h8 : p.docdbPort = q.docdbPort)
    (h9 : p.vpcCidr = q.vpcCidr) :
    buildLegendPlatform p = buildLegendPlatform q := by
  have hpq : p = q := by
    cases p
    cases q
    simp_all
  rw [hpq]

/-- Closed instance: rebuilding the reference configuration reproduces
the same result. -/
theorem c9_witness :
    buildLegendPlatform refProps = buildLegendPlatform refProps :=
  c9_deterministic refProps refProps rfl rfl rfl rfl rfl rfl rfl rfl rfl

/-- C10: every built graph holds exactly seven workload deployments; each
mounts all six SecretProviderClasses and carries the identical shared
environment list; no environment-variable secret reference names the
certificate or Grafana-admin target secrets, although both bindings are
among the six mounted into every pod. -/
theorem c10_uniform_mounts_shared_env (p : LegendPlatformProps) (a : String) :
    (mkPlatformGraph p a).workloads.length = 7 ∧
    (∀ w ∈ (mkPlatformGraph p a).workloads,
      w.volumes.map (fun v => v.spcName) =
        ["domain-spc", "cert-spc", "gitlab-id-spc", "gitlab-secret-spc",
         "grafana-spc", "docdb-spc"] ∧
      w.env = commonEnv p.docdbHost p.docdbPort ∧
      (∀ r ∈ envSecretRefs w,
        r.1 ≠ "legend-certificate-secret" ∧ r.1 ≠ "legend-grafana-secret")) ∧
    ((mkPlatformGraph p a).spcs.map fun s => s.secretName) =
      ["legend-domain-secret", "legend-certificate-secret", "legend-gitlab-id-secret",
       "legend-gitlab-secret", "legend-grafana-secret", "legend-docdb-secret"] := by
  refine ⟨rfl, ?_, rfl⟩
  intro w hw
  rw [workloads_mkPlatformGraph, List.mem_map] at hw
  obtain ⟨c, hc, rfl⟩ := hw
  refine ⟨rfl, rfl, ?_⟩
  intro r hr
  rw [envSecretRefs_makeDeployment] at hr
  fin_cases hr <;> decide

/-- Closed instance of C10: the reference graph has seven workloads. -/
theorem c10_witness :
    (mkPlatformGraph refProps
      "arn:aws:secretsmanager:::secret:legend-docdb-master").workloads.length = 7 :=
  (c10_uniform_mounts_shared_env refProps
    "arn:aws:secretsmanager:::secret:legend-docdb-master").1

/-- C3: `createSecretProviderClass` gives a record holding a single
opaque value a one-entry field map sending the entire value (JMESPath
`"."`) to the single target key; the database-credential call produces a
two-entry field map, one per named property (`password`, `username`),
each with its own target key; and in every binding of the reference graph
the target key names within the field map are pairwise distinct. -/
theorem c3_fieldmap_shape (idSuffix nsName arn name key : String) :
    (createSecretProviderClass idSuffix nsName arn name key none none none).data =
      [⟨key, key⟩] ∧
    ((createSecretProviderClass idSuffix nsName arn name key none none none).objects.map
      fun o => o.jmes) = [[⟨".", key⟩]] ∧
    (createSecretProviderClass "docdb-spc" nsName arn "legend-docdb-secret" "DOCDB_PASSWORD"
      (some "password") (some "username") (some "DOCDB_USERNAME")).data =
        [⟨"DOCDB_PASSWORD", "DOCDB_PASSWORD"⟩, ⟨"DOCDB_USERNAME", "DOCDB_USERNAME"⟩] ∧
    ((createSecretProviderClass "docdb-spc" nsName arn "legend-docdb-secret" "DOCDB_PASSWORD"
      (some "password") (some "username") (some "DOCDB_USERNAME")).objects.map
      fun o => o.jmes) =
        [[⟨"password", "DOCDB_PASSWORD"⟩, ⟨"username", "DOCDB_USERNAME"⟩]] ∧
    (∀ spc ∈ refGraph.spcs, (spc.data.map fun d => d.key).Nodup) := by
  refine ⟨rfl, rfl, rfl, rfl, ?_⟩
  decide

/-- Closed instance of C3 at the domain-secret call site. -/
theorem c3_witness :
    (createSecretProviderClass "domain-spc" "legend"
      "arn:aws:secretsmanager:::secret:legend/domainName" "legend-domain-secret"
      "LEGEND_DOMAIN" none none none).data =
      [⟨"LEGEND_DOMAIN", "LEGEND_DOMAIN"⟩] :=
  (c3_fieldmap_shape "domain-spc" "legend"
    "arn:aws:secretsmanager:::secret:legend/domainName" "legend-domain-secret"
    "LEGEND_DOMAIN").1

end Legend
